import Mathlib

/-!
Shallow embedding of the tunnel correlation and forwarding engine
(src/server/handle.go and the admin/bootstrap file src/unnamed/part_000).

Connections and listeners are abstract handles (`Nat`).  Effects on the socket
environment (closing handles, writing frames) are recorded in an explicit `Net`
state.  External collaborators (the uuid generator, `net.Listen`,
`toml.Unmarshal`, `os.ReadFile`) are passed in as parameters; repository code
that is not among the provided sources (the `ConnMap` store, the `layer`
framing package, `proxy.P`) is modelled from the spec, as marked on each
definition.
-/

namespace Pipe

/-- src/server/handle.go:16, `Config`.  The source comment on `AdminPort`
reads "zero means disable admin server". -/
structure Config where
  Port : Int
  AdminPort : Int
  deriving DecidableEq, Repr

/-- Modelled from the spec: the Correlation Store (`ConnMap` in the source;
its defining file is not among the provided sources, only its call sites in
src/server/handle.go).  Per the spec it is "a concurrency-safe mapping from
correlation identifier to a pending inbound connection, with
add/remove/lookup".  The `conns` field name mirrors the source
(`conns: make(map[string]net.Conn)`); the map is modelled as an association
list, most recent insertion first. -/
structure ConnMap where
  conns : List (String × Nat)
  deriving DecidableEq, Repr

/-- Modelled from the spec: map insert (`ConnMap.Add`). -/
def ConnMap.Add (m : ConnMap) (cid : String) (conn : Nat) : ConnMap :=
  ⟨(cid, conn) :: m.conns⟩

/-- Modelled from the spec: map lookup (`ConnMap.Get`), not a removing take;
`none` plays the role of the `ok = false` result. -/
def ConnMap.Get (m : ConnMap) (cid : String) : Option Nat :=
  (m.conns.find? (fun e => e.1 == cid)).map (fun e => e.2)

/-- Modelled from the spec: map delete (`ConnMap.Del`). -/
def ConnMap.Del (m : ConnMap) (cid : String) : ConnMap :=
  ⟨m.conns.filter (fun e => e.1 != cid)⟩

/-- Modelled from the spec: the record the Splice/Meter returns
(`proxy.Traffic`; the proxy package is not among the provided sources).  The
byte counters are not modelled; the record keeps which two connections were
handed to the splice, which is what the claims below observe. -/
structure Traffic where
  dataConn : Nat
  userConn : Nat
  deriving DecidableEq, Repr

/-- Modelled from the spec: `proxy.P` splices the two connections and returns
their Traffic record. -/
def P (dataConn userConn : Nat) : Traffic :=
  ⟨dataConn, userConn⟩

/-- src/server/handle.go:30, `Forward`.  `uListener` is the public listener's
handle. -/
structure Forward where
  From : String
  To : String
  uListener : Nat
  deriving DecidableEq, Repr

/-- src/server/handle.go:21, `Server`.  The mutex only guards the fields and
has no sequential content. -/
structure Server where
  cfg : Config
  connMap : ConnMap
  forwards : List Forward
  traffics : List Traffic
  deriving DecidableEq, Repr

/-- The socket environment the handlers act on: which connection handles and
listener handles the server has closed, and the Exchange frames it has
written (control connection paired with the correlation id sent), most recent
first.  `layer.ExchangeMsg.Send(commuConn, cid)` is the only frame the server
ever sends. -/
structure Net where
  closedConns : List Nat
  closedListeners : List Nat
  sentFrames : List (Nat × String)
  deriving DecidableEq, Repr

/-- Modelled from the spec: the framing layer is an external collaborator
("an opaque length-prefixed framing layer"), so packet buffers are modelled
by their decoded payloads and the parse functions are identities. -/
def ParseRegisterPacket (buf : Int) : Int := buf

/-- Modelled from the spec: see `ParseRegisterPacket`. -/
def ParseExchangePacket (buf : String) : String := buf

/-- Modelled from the spec: see `ParseRegisterPacket`. -/
def ParseCancelPacket (buf : Int) : Int := buf

/-- src/server/handle.go:37, `addUserConn`. -/
def Server.addUserConn (s : Server) (cid : String) (conn : Nat) : Server :=
  { s with connMap := s.connMap.Add cid conn }

/-- src/server/handle.go:41, `delUserConn`. -/
def Server.delUserConn (s : Server) (cid : String) : Server :=
  { s with connMap := s.connMap.Del cid }

/-- src/server/handle.go:45, `getUserConn`. -/
def Server.getUserConn (s : Server) (cid : String) : Option Nat :=
  s.connMap.Get cid

/-- src/server/handle.go:49, `addForward` (Go `append`: adds at the end). -/
def Server.addForward (s : Server) (f : Forward) : Server :=
  { s with forwards := s.forwards ++ [f] }

/-- Closing a listener handle. -/
def Net.closeListener (net : Net) (l : Nat) : Net :=
  { net with closedListeners := l :: net.closedListeners }

/-- src/server/handle.go:55, the scan loop of `delForward`: remove the first
forward whose `To` equals the target (Go parameter `to`), closing its listener; if none matches, do
nothing. -/
def delForwardAux (toAddr : String) : List Forward → Net → List Forward × Net
  | [], net => ([], net)
  | ff :: rest, net =>
      if ff.To = toAddr then (rest, net.closeListener ff.uListener)
      else
        let r := delForwardAux toAddr rest net
        (ff :: r.1, r.2)

/-- src/server/handle.go:55, `delForward`. -/
def Server.delForward (s : Server) (net : Net) (toAddr : String) : Server × Net :=
  let r := delForwardAux toAddr s.forwards net
  ({ s with forwards := r.1 }, r.2)

/-- src/server/handle.go:67, `metric` (Go `append`: adds at the end). -/
def Server.metric (s : Server) (t : Traffic) : Server :=
  { s with traffics := s.traffics ++ [t] }

/-- src/server/handle.go:168, `handleMessage`: parse the id, look it up with
the non-removing `getUserConn`; if absent, return at once; if present, run
`s.metric(proxy.P(conn, uConn))` and then the deferred `delUserConn` (the
`defer` at line 175 executes only when the handler returns, i.e. after the
splice). -/
def Server.handleMessage (s : Server) (conn : Nat) (buf : String) : Server :=
  let rid := ParseExchangePacket buf
  match s.getUserConn rid with
  | none => s
  | some uConn => (s.metric (P conn uConn)).delUserConn rid

/-- The Correlation Store contents at the moment `handleMessage` invokes
`s.metric(proxy.P(conn, uConn))` (src/server/handle.go:176), or `none` when
the id is not found and the splice never happens.  At that point no store
mutation has occurred since entry: the lookup at line 170 is a plain `Get`
and `delUserConn` (line 175) is deferred to handler return, so the store the
splice sees is still the caller's store. -/
def storeAtSplice (s : Server) (buf : String) : Option ConnMap :=
  match s.getUserConn (ParseExchangePacket buf) with
  | none => none
  | some _ => some s.connMap

/-- src/server/handle.go:179 (`isInvaliedPort`, name as in the source). -/
def isInvaliedPort (port : Int) : Bool :=
  port < 0 || port > 65535

/-- src/server/handle.go:133, `handleCancel`: format the target as
`fmt.Sprintf(":%d", rPort)` and delegate to `delForward`. -/
def Server.handleCancel (s : Server) (net : Net) (rPort : Int) : Server × Net :=
  s.delForward net (":" ++ toString rPort)

/-- Modelled from the spec: `layer.ExchangeMsg.Send(commuConn, cid)` writes
one Exchange frame carrying `cid` on the control connection. -/
def Net.sendExchange (net : Net) (commuConn : Nat) (cid : String) : Net :=
  { net with sentFrames := (commuConn, cid) :: net.sentFrames }

/-- src/server/handle.go:160, the per-user-connection goroutine body of the
accept loop: store the inbound connection under the minted `cid` and send the
Exchange frame carrying `cid` on the control connection. -/
def handleUserConn (s : Server) (net : Net) (commuConn : Nat) (cid : String)
    (userConn : Nat) : Server × Net :=
  (s.addUserConn cid userConn, net.sendExchange commuConn cid)

/-- src/server/handle.go:154, the accept loop of `handleForward`.  `mint k`
stands for the k-th correlation id the external uuid generator yields for
this forward (`uuid.NewString()[:layer.Len-1]`); `userConns` is the sequence
of inbound connections the listener accepts before `Accept` fails, handled in
order. -/
def acceptLoop (mint : Nat → String) (commuConn : Nat) :
    Nat → List Nat → Server → Net → Server × Net
  | _, [], s, net => (s, net)
  | n, userConn :: rest, s, net =>
      let r := handleUserConn s net commuConn (mint n) userConn
      acceptLoop mint commuConn (n + 1) rest r.1 r.2

/-- src/server/handle.go:138, `handleForward`.  `bind` models `net.Listen`
(an external collaborator): `some l` is a freshly bound listener handle,
`none` a bind failure.  An invalid port or a bind failure returns with no
state change (the connection is not touched).  On success the forward is
registered and the accept loop runs; when the loop exits the deferred
`uListener.Close()` (line 150) runs. -/
def Server.handleForward (s : Server) (net : Net) (mint : Nat → String)
    (bind : Int → Option Nat) (commuConn : Nat) (remoteAddr : String)
    (buf : Int) (userConns : List Nat) : Server × Net :=
  let uPort := ParseRegisterPacket buf
  if isInvaliedPort uPort then (s, net)
  else
    match bind uPort with
    | none => (s, net)
    | some uListener =>
        let s1 := s.addForward ⟨remoteAddr, ":" ++ toString uPort, uListener⟩
        let r := acceptLoop mint commuConn 0 userConns s1 net
        (r.1, r.2.closeListener uListener)

/-- Modelled from the spec: the three message kinds the framing layer
delivers (`layer.RegisterForward`, `layer.ExchangeMsg`,
`layer.CancelForward`), plus any other type tag, which the `switch` in
`handle` ignores.  Payloads are the decoded buffers. -/
inductive Packet
  | RegisterForward (buf : Int)
  | ExchangeMsg (buf : String)
  | CancelForward (buf : Int)
  | Unknown (tag : Nat)
  deriving DecidableEq, Repr

/-- src/server/handle.go:116, `handle`: read one frame from the connection
(`none` models `err != nil || buf == nil`) and dispatch on its type.  The
function is total — no path aborts the process — and no path closes `conn`
(the source contains no `conn.Close()` call). -/
def Server.handle (s : Server) (net : Net) (mint : Nat → String)
    (bind : Int → Option Nat) (conn : Nat) (remoteAddr : String)
    (userConns : List Nat) (readResult : Option Packet) : Server × Net :=
  match readResult with
  | none => (s, net)
  | some (.RegisterForward buf) =>
      s.handleForward net mint bind conn remoteAddr buf userConns
  | some (.ExchangeMsg buf) => (s.handleMessage conn buf, net)
  | some (.CancelForward buf) => s.handleCancel net (ParseCancelPacket buf)
  | some (.Unknown _) => (s, net)

/-- The ids paired with the inbound connections the accept loop handles,
starting at mint index `n`: entry k of the result is
`(mint (n + k), userConns[k])`. -/
def mintedEntries (mint : Nat → String) : Nat → List Nat → List (String × Nat)
  | _, [] => []
  | n, u :: rest => (mint n, u) :: mintedEntries mint (n + 1) rest

/-- What `startAdmin` does with the configuration. -/
inductive AdminAction
  | listenAndServe (addr : String)
  deriving DecidableEq, Repr

/-- src/unnamed/part_000:18, `startAdmin`: after installing the template and
static-asset handlers it always calls
`http.ListenAndServe(":" + strconv.Itoa(s.cfg.AdminPort), nil)` — there is no
branch testing `AdminPort`, so the admin listener is started for every
configuration (with `AdminPort = 0` the address is ":0", an OS-assigned
ephemeral port). -/
def startAdmin (cfg : Config) : AdminAction :=
  .listenAndServe (":" ++ toString cfg.AdminPort)

/-- Outcome of `parseConfig`: `fatal` models `logger.FatalF`, which aborts
the process. -/
inductive ParseOutcome
  | fatal
  | ret (cfg : Config)
  deriving DecidableEq, Repr

/-- Result of `os.ReadFile` (an external collaborator). -/
inductive ReadFileResult
  | ok (data : String)
  | fileError
  deriving DecidableEq, Repr

/-- Output of `toml.Unmarshal` (an external collaborator): it fills in a
`Config` (zero-valued where it could not parse) and also returns an error
value. -/
structure UnmarshalResult where
  cfg : Config
  err : Option String
  deriving DecidableEq, Repr

/-- src/server/handle.go:82, `parseConfig`: a read error is `logger.FatalF`
(process abort); the error returned by `toml.Unmarshal` at line 89 is
discarded, and whatever config it produced is returned. -/
def parseConfig (readFile : ReadFileResult)
    (unmarshal : String → UnmarshalResult) : ParseOutcome :=
  match readFile with
  | .fileError => .fatal
  | .ok data => .ret (unmarshal data).cfg

/-- Outcome of `Run`'s startup. -/
inductive RunOutcome
  | fatal
  | accepting (listener : Nat)
  deriving DecidableEq, Repr

/-- src/server/handle.go:94, `Run`: bind the main listener (`net.Listen`,
modelled by `bindMain`); failure is `logger.FatalF` (process abort), success
enters the accept loop with the bound listener. -/
def Run (s : Server) (bindMain : Int → Option Nat) : RunOutcome :=
  match bindMain s.cfg.Port with
  | none => .fatal
  | some l => .accepting l

/-! ## Helper lemmas -/

/-- Looking up an id in the store right after deleting it yields nothing. -/
theorem ConnMap.Get_Del (m : ConnMap) (cid : String) : (m.Del cid).Get cid = none := by
  simp only [ConnMap.Del, ConnMap.Get, Option.map_eq_none', List.find?_eq_none]
  intro x hx
  have h2 := (List.mem_filter.mp hx).2
  simp only [bne_iff_ne, ne_eq] at h2
  simp [h2]

/-- Closed form of the accept loop: starting at mint index `n`, processing the
inbound connections `l` inserts exactly the entries `mintedEntries mint n l`
into the Correlation Store (most recent first) and writes exactly one Exchange
frame per entry, carrying that entry's id, on the control connection; nothing
else in the server or socket state changes. -/
theorem acceptLoop_run (mint : Nat → String) (commuConn : Nat) :
    ∀ (l : List Nat) (n : Nat) (s : Server) (net : Net),
      acceptLoop mint commuConn n l s net =
        ({ s with connMap := ⟨(mintedEntries mint n l).reverse ++ s.connMap.conns⟩ },
         { net with sentFrames :=
            ((mintedEntries mint n l).map (fun e => (commuConn, e.1))).reverse
              ++ net.sentFrames }) := by
  intro l
  induction l with
  | nil => intro n s net; rfl
  | cons u rest ih =>
    intro n s net
    simp only [acceptLoop, handleUserConn, Server.addUserConn, Net.sendExchange,
      ConnMap.Add]
    rw [ih]
    simp [mintedEntries, List.reverse_cons, List.append_assoc]

/-- The ids of the minted entries are the minting function applied to the
consecutive indices. -/
theorem mintedEntries_fst (mint : Nat → String) :
    ∀ (l : List Nat) (n : Nat),
      (mintedEntries mint n l).map Prod.fst = (List.range' n l.length).map mint := by
  intro l
  induction l with
  | nil => intro n; rfl
  | cons u rest ih =>
    intro n
    simp only [mintedEntries, List.map_cons, List.length_cons, List.range'_succ, ih]

/-- If the minting function does not collide on the indices actually used, the
issued ids are pairwise distinct. -/
theorem mintedEntries_fst_nodup (mint : Nat → String) (l : List Nat)
    (hinj : ∀ i, i < l.length → ∀ j, j < l.length → mint i = mint j → i = j) :
    ((mintedEntries mint 0 l).map Prod.fst).Nodup := by
  rw [mintedEntries_fst]
  refine List.Nodup.map_on ?_ (List.nodup_range' 0 l.length)
  intro x hx y hy hxy
  rw [List.mem_range'] at hx hy
  obtain ⟨i, hi, rfl⟩ := hx
  obtain ⟨j, hj, rfl⟩ := hy
  simpa using hinj _ (by simpa using hi) _ (by simpa using hj) (by simpa using hxy)

/-! ## Claim theorems -/

/-- C1, counterexample to the claim as stated: with the Correlation Store
holding id "ab" for connection 5, a successful Exchange claim of "ab" hands
the two connections to the Splice/Meter while the entry is still present in
the store — the lookup (handle.go:170) does not remove, and the removal
(line 175) is deferred until after the splice — so it is not the case that
the entry is absent before the handoff. -/
theorem c1_counterexample :
    ¬ (∀ m : ConnMap,
        storeAtSplice ⟨⟨8910, 0⟩, ⟨[("ab", 5)]⟩, [], []⟩ "ab" = some m →
          m.Get "ab" = none) := by
  intro h
  have hm := h ⟨[("ab", 5)]⟩ (by decide)
  exact absurd hm (by decide)

/-- C1, amended: a successful Exchange claim removes the id's entry from the
Correlation Store when the handler returns — after, not before, the two
connections are handed to the Splice/Meter (the store at the splice call is
still the caller's store) — and any later claim of the same id, made after
the handler has completed, finds nothing and changes nothing, so under
sequential execution the id is claimable at most once. -/
theorem c1_at_most_once (s : Server) (conn conn2 : Nat) (buf : String) (u : Nat)
    (h : s.getUserConn (ParseExchangePacket buf) = some u) :
    s.handleMessage conn buf
        = (s.metric (P conn u)).delUserConn (ParseExchangePacket buf)
    ∧ storeAtSplice s buf = some s.connMap
    ∧ (s.handleMessage conn buf).getUserConn (ParseExchangePacket buf) = none
    ∧ (s.handleMessage conn buf).handleMessage conn2 buf
        = s.handleMessage conn buf := by
  have h1 : s.handleMessage conn buf
      = (s.metric (P conn u)).delUserConn (ParseExchangePacket buf) := by
    simp [Server.handleMessage, h]
  have h3 : (s.handleMessage conn buf).getUserConn (ParseExchangePacket buf)
      = none := by
    rw [h1]
    exact ConnMap.Get_Del _ _
  refine ⟨h1, by simp [storeAtSplice, h], h3, ?_⟩
  generalize hgen : s.handleMessage conn buf = s2 at h3 ⊢
  simp [Server.handleMessage, h3]

/-- C1, witness for `c1_at_most_once` at a concrete input. -/
theorem c1_at_most_once_witness :
    (Server.getUserConn ⟨⟨8910, 0⟩, ⟨[("ab", 5)]⟩, [], []⟩
        (ParseExchangePacket "ab") = some 5)
    ∧ (Server.handleMessage ⟨⟨8910, 0⟩, ⟨[("ab", 5)]⟩, [], []⟩ 9 "ab"
          = Server.delUserConn
              (Server.metric ⟨⟨8910, 0⟩, ⟨[("ab", 5)]⟩, [], []⟩ (P 9 5))
              (ParseExchangePacket "ab")
        ∧ storeAtSplice ⟨⟨8910, 0⟩, ⟨[("ab", 5)]⟩, [], []⟩ "ab"
            = some ⟨[("ab", 5)]⟩
        ∧ (Server.handleMessage ⟨⟨8910, 0⟩, ⟨[("ab", 5)]⟩, [], []⟩ 9
              "ab").getUserConn (ParseExchangePacket "ab") = none
        ∧ (Server.handleMessage ⟨⟨8910, 0⟩, ⟨[("ab", 5)]⟩, [], []⟩ 9
              "ab").handleMessage 10 "ab"
            = Server.handleMessage ⟨⟨8910, 0⟩, ⟨[("ab", 5)]⟩, [], []⟩ 9 "ab") :=
  ⟨by decide,
   c1_at_most_once ⟨⟨8910, 0⟩, ⟨[("ab", 5)]⟩, [], []⟩ 9 10 "ab" 5 (by decide)⟩

/-- C2: for a Register on a valid port `0 ≤ p ≤ 65535` whose bind succeeds,
the forward's accept loop adds, per inbound connection, exactly one
Correlation Store entry and sends exactly one Exchange frame on the control
channel carrying that entry's id — the k-th inbound connection yields exactly
the entry `(mint k, conn)` and exactly the frame `(commuConn, mint k)`, and
nothing else is added or sent — and, given that the external uuid generator
does not collide on the indices actually minted, no id repeats during the
forward's lifetime. -/
theorem c2_one_entry_one_frame (mint : Nat → String) (bind : Int → Option Nat)
    (commuConn L : Nat) (remoteAddr : String) (p : Int)
    (userConns : List Nat) (s : Server) (net : Net)
    (h0 : 0 ≤ p) (h1 : p ≤ 65535) (hb : bind p = some L)
    (hinj : ∀ i, i < userConns.length → ∀ j, j < userConns.length →
        mint i = mint j → i = j) :
    ((s.handleForward net mint bind commuConn remoteAddr p
        userConns).1.connMap.conns
        = (mintedEntries mint 0 userConns).reverse ++ s.connMap.conns)
    ∧ ((s.handleForward net mint bind commuConn remoteAddr p
        userConns).2.sentFrames
        = ((mintedEntries mint 0 userConns).map
            (fun e => (commuConn, e.1))).reverse ++ net.sentFrames)
    ∧ ((mintedEntries mint 0 userConns).map Prod.fst).Nodup := by
  have hv : isInvaliedPort p = false := by
    simp only [isInvaliedPort, Bool.or_eq_false_iff, decide_eq_false_iff_not,
      not_lt]
    omega
  refine ⟨?_, ?_, mintedEntries_fst_nodup mint userConns hinj⟩ <;>
    simp [Server.handleForward, ParseRegisterPacket, hv, hb,
      acceptLoop_run, Net.closeListener, Server.addForward]

/-- C2, witness for `c2_one_entry_one_frame` at a concrete input. -/
theorem c2_one_entry_one_frame_witness :
    ((0 : Int) ≤ 8000 ∧ (8000 : Int) ≤ 65535
      ∧ (fun _ : Int => some 3) (8000 : Int) = some 3
      ∧ (∀ i, i < [7].length → ∀ j, j < [7].length →
          (fun k : Nat => toString k) i = (fun k : Nat => toString k) j → i = j))
    ∧ ((Server.handleForward ⟨⟨8910, 0⟩, ⟨[]⟩, [], []⟩ ⟨[], [], []⟩
          (fun k : Nat => toString k) (fun _ : Int => some 3) 4 "addr" 8000
          [7]).1.connMap.conns
        = (mintedEntries (fun k : Nat => toString k) 0 [7]).reverse
            ++ (⟨⟨8910, 0⟩, ⟨[]⟩, [], []⟩ : Server).connMap.conns)
    ∧ ((Server.handleForward ⟨⟨8910, 0⟩, ⟨[]⟩, [], []⟩ ⟨[], [], []⟩
          (fun k : Nat => toString k) (fun _ : Int => some 3) 4 "addr" 8000
          [7]).2.sentFrames
        = ((mintedEntries (fun k : Nat => toString k) 0 [7]).map
            (fun e => (4, e.1))).reverse
            ++ (⟨[], [], []⟩ : Net).sentFrames)
    ∧ ((mintedEntries (fun k : Nat => toString k) 0 [7]).map Prod.fst).Nodup :=
  ⟨⟨by decide, by decide, rfl, by decide⟩,
   (c2_one_entry_one_frame (fun k : Nat => toString k) (fun _ : Int => some 3)
      4 3 "addr" 8000 [7] ⟨⟨8910, 0⟩, ⟨[]⟩, [], []⟩ ⟨[], [], []⟩
      (by decide) (by decide) rfl (by decide)).1,
   (c2_one_entry_one_frame (fun k : Nat => toString k) (fun _ : Int => some 3)
      4 3 "addr" 8000 [7] ⟨⟨8910, 0⟩, ⟨[]⟩, [], []⟩ ⟨[], [], []⟩
      (by decide) (by decide) rfl (by decide)).2.1,
   (c2_one_entry_one_frame (fun k : Nat => toString k) (fun _ : Int => some 3)
      4 3 "addr" 8000 [7] ⟨⟨8910, 0⟩, ⟨[]⟩, [], []⟩ ⟨[], [], []⟩
      (by decide) (by decide) rfl (by decide)).2.2⟩

/-- C3, counterexample to the claim as stated: an Exchange frame carrying the
unknown id "zz" leaves the claiming connection 9 unclosed — the handler just
returns, and the source has no `conn.Close()` call — so the server does not
close the claiming connection. -/
theorem c3_counterexample :
    ¬ (9 ∈ (Server.handle ⟨⟨8910, 0⟩, ⟨[]⟩, [], []⟩ ⟨[], [], []⟩
        (fun _ => "x") (fun _ => none) 9 "addr" []
        (some (.ExchangeMsg "zz"))).2.closedConns) := by
  decide

/-- C3, amended: for every Exchange frame carrying an id with no pending
entry in the Correlation Store, the handler returns with the server state and
the socket environment entirely unchanged: the store is untouched, no splice
is recorded, no frame is sent, and the claiming connection is left open (it
is not closed by the server). -/
theorem c3_unknown_id (s : Server) (net : Net) (mint : Nat → String)
    (bind : Int → Option Nat) (conn : Nat) (remoteAddr : String)
    (userConns : List Nat) (buf : String)
    (h : s.getUserConn (ParseExchangePacket buf) = none) :
    s.handle net mint bind conn remoteAddr userConns
      (some (.ExchangeMsg buf)) = (s, net) := by
  simp [Server.handle, Server.handleMessage, h]

/-- C3, witness for `c3_unknown_id` at a concrete input. -/
theorem c3_unknown_id_witness :
    (Server.getUserConn ⟨⟨8910, 0⟩, ⟨[("ab", 5)]⟩, [], []⟩
        (ParseExchangePacket "zz") = none)
    ∧ Server.handle ⟨⟨8910, 0⟩, ⟨[("ab", 5)]⟩, [], []⟩ ⟨[], [], []⟩
        (fun _ => "x") (fun _ => none) 9 "addr" []
        (some (.ExchangeMsg "zz"))
      = (⟨⟨8910, 0⟩, ⟨[("ab", 5)]⟩, [], []⟩, ⟨[], [], []⟩) :=
  ⟨by decide,
   c3_unknown_id ⟨⟨8910, 0⟩, ⟨[("ab", 5)]⟩, [], []⟩ ⟨[], [], []⟩
     (fun _ => "x") (fun _ => none) 9 "addr" [] "zz" (by decide)⟩

/-- C4, counterexample to the claim as stated: a Register frame for the
invalid port 70000 is rejected, but the requesting connection 7 is not
dropped in the sense of being closed — the handler returns and the source has
no `conn.Close()` call — so the requesting connection stays open. -/
theorem c4_counterexample :
    ¬ (7 ∈ (Server.handleForward ⟨⟨8910, 0⟩, ⟨[]⟩, [], []⟩ ⟨[], [], []⟩
        (fun _ => "x") (fun _ => none) 7 "addr" 70000 []).2.closedConns) := by
  decide

/-- C4, amended: for every Register frame whose port is outside 0..65535 or
whose listener bind fails, the handler returns with the server state and the
socket environment entirely unchanged: no Forward is added to the registry,
no correlation entry is created, no frame is sent, nothing is retried, and
the requesting connection is left open (it is not closed by the server). -/
theorem c4_reject (s : Server) (net : Net) (mint : Nat → String)
    (bind : Int → Option Nat) (commuConn : Nat) (remoteAddr : String)
    (buf : Int) (userConns : List Nat)
    (h : isInvaliedPort (ParseRegisterPacket buf) = true
        ∨ bind (ParseRegisterPacket buf) = none) :
    s.handleForward net mint bind commuConn remoteAddr buf userConns
      = (s, net) := by
  rcases h with h | h
  · simp [Server.handleForward, h]
  · by_cases hi : isInvaliedPort (ParseRegisterPacket buf) <;>
      simp [Server.handleForward, hi, h]

/-- C4, witness for `c4_reject` at a concrete input. -/
theorem c4_reject_witness :
    (isInvaliedPort (ParseRegisterPacket 70000) = true
      ∨ (fun _ : Int => (none : Option Nat)) (ParseRegisterPacket 70000) = none)
    ∧ Server.handleForward ⟨⟨8910, 0⟩, ⟨[]⟩, [], []⟩ ⟨[], [], []⟩
        (fun _ => "x") (fun _ : Int => (none : Option Nat)) 7 "addr" 70000 []
      = (⟨⟨8910, 0⟩, ⟨[]⟩, [], []⟩, ⟨[], [], []⟩) :=
  ⟨Or.inl (by decide),
   c4_reject ⟨⟨8910, 0⟩, ⟨[]⟩, [], []⟩ ⟨[], [], []⟩ (fun _ => "x")
     (fun _ : Int => (none : Option Nat)) 7 "addr" 70000 []
     (Or.inl (by decide))⟩

/-- First-match removal: if the registry splits as `pre ++ f :: post` with no
match in `pre` and `f` matching, the scan closes `f`'s listener and removes
exactly `f`, keeping everything else in its original order. -/
theorem delForwardAux_found (toAddr : String) (f : Forward)
    (hf : f.To = toAddr) :
    ∀ (pre : List Forward), (∀ g ∈ pre, g.To ≠ toAddr) →
      ∀ (post : List Forward) (net : Net),
        delForwardAux toAddr (pre ++ f :: post) net
          = (pre ++ post, net.closeListener f.uListener) := by
  intro pre
  induction pre with
  | nil =>
    intro _ post net
    simp [delForwardAux, hf]
  | cons g rest ih =>
    intro hpre post net
    have hg : g.To ≠ toAddr := hpre g (by simp)
    simp [delForwardAux, hg, ih (fun x hx => hpre x (by simp [hx])) post net]

/-- If no forward matches, the scan changes nothing. -/
theorem delForwardAux_not_found (toAddr : String) :
    ∀ (l : List Forward) (net : Net), (∀ g ∈ l, g.To ≠ toAddr) →
      delForwardAux toAddr l net = (l, net) := by
  intro l
  induction l with
  | nil => intro net _; rfl
  | cons g rest ih =>
    intro net h
    have hg : g.To ≠ toAddr := h g (by simp)
    simp [delForwardAux, hg, ih net (fun x hx => h x (by simp [hx]))]

/-- C5: a Cancel whose formatted target `":" ++ port` matches an active
forward (the first match, here isolated by the `pre`/`post` split) closes
that forward's public listener and removes exactly that forward from the
registry, leaving all other forwards present in their original order; no
connection map or traffic state changes. -/
theorem c5_cancel_active (s : Server) (net : Net) (rPort : Int)
    (pre post : List Forward) (f : Forward)
    (hsplit : s.forwards = pre ++ f :: post)
    (hf : f.To = ":" ++ toString rPort)
    (hpre : ∀ g ∈ pre, g.To ≠ ":" ++ toString rPort) :
    s.handleCancel net rPort
      = ({ s with forwards := pre ++ post },
         net.closeListener f.uListener) := by
  simp [Server.handleCancel, Server.delForward, hsplit,
    delForwardAux_found _ f hf pre hpre post net]

/-- C5, witness for `c5_cancel_active` at a concrete input. -/
theorem c5_cancel_active_witness :
    ((⟨⟨8910, 0⟩, ⟨[]⟩,
        [⟨"a", ":7000", 1⟩, ⟨"b", ":8000", 2⟩, ⟨"c", ":9000", 3⟩],
        []⟩ : Server).forwards
      = [⟨"a", ":7000", 1⟩] ++ (⟨"b", ":8000", 2⟩ : Forward)
          :: [⟨"c", ":9000", 3⟩])
    ∧ ((⟨"b", ":8000", 2⟩ : Forward).To = ":" ++ toString (8000 : Int))
    ∧ (∀ g ∈ [(⟨"a", ":7000", 1⟩ : Forward)],
        g.To ≠ ":" ++ toString (8000 : Int))
    ∧ Server.handleCancel ⟨⟨8910, 0⟩, ⟨[]⟩,
        [⟨"a", ":7000", 1⟩, ⟨"b", ":8000", 2⟩, ⟨"c", ":9000", 3⟩], []⟩
        ⟨[], [], []⟩ 8000
      = (⟨⟨8910, 0⟩, ⟨[]⟩, [⟨"a", ":7000", 1⟩, ⟨"c", ":9000", 3⟩], []⟩,
         ⟨[], [2], []⟩) :=
  ⟨rfl, by decide, by decide,
   c5_cancel_active ⟨⟨8910, 0⟩, ⟨[]⟩,
       [⟨"a", ":7000", 1⟩, ⟨"b", ":8000", 2⟩, ⟨"c", ":9000", 3⟩], []⟩
     ⟨[], [], []⟩ 8000 [⟨"a", ":7000", 1⟩] [⟨"c", ":9000", 3⟩]
     ⟨"b", ":8000", 2⟩ rfl (by decide) (by decide)⟩

/-- C6: a Cancel whose formatted target matches no forward in the registry is
a no-op: the whole server state and the socket environment are returned
unchanged — no forward removed, no listener closed, no error raised (the
handler is total). -/
theorem c6_cancel_noop (s : Server) (net : Net) (rPort : Int)
    (h : ∀ g ∈ s.forwards, g.To ≠ ":" ++ toString rPort) :
    s.handleCancel net rPort = (s, net) := by
  simp [Server.handleCancel, Server.delForward,
    delForwardAux_not_found _ s.forwards net h]

/-- C6, witness for `c6_cancel_noop` at a concrete input. -/
theorem c6_cancel_noop_witness :
    (∀ g ∈ (⟨⟨8910, 0⟩, ⟨[]⟩, [⟨"a", ":7000", 1⟩], []⟩ : Server).forwards,
        g.To ≠ ":" ++ toString (8000 : Int))
    ∧ Server.handleCancel ⟨⟨8910, 0⟩, ⟨[]⟩, [⟨"a", ":7000", 1⟩], []⟩
        ⟨[], [], []⟩ 8000
      = (⟨⟨8910, 0⟩, ⟨[]⟩, [⟨"a", ":7000", 1⟩], []⟩, ⟨[], [], []⟩) :=
  ⟨by decide,
   c6_cancel_noop ⟨⟨8910, 0⟩, ⟨[]⟩, [⟨"a", ":7000", 1⟩], []⟩ ⟨[], [], []⟩
     8000 (by decide)⟩

/-- C7, counterexample to the claim as stated: when the first frame of
connection 9 cannot be read or decoded, the handler returns without closing
the connection (the source has no `conn.Close()` call), so the server does
not drop the connection in the sense of closing it. -/
theorem c7_counterexample :
    ¬ (9 ∈ (Server.handle ⟨⟨8910, 0⟩, ⟨[]⟩, [], []⟩ ⟨[], [], []⟩
        (fun _ => "x") (fun _ => none) 9 "addr" [] none).2.closedConns) := by
  decide

/-- C7, amended: for every accepted raw connection whose first frame cannot
be read or decoded, the handler returns with the server state and the socket
environment entirely unchanged — the Forward Registry and Correlation Store
are untouched, nothing is sent, nothing is retried — and the connection is
left open (not closed by the server); the handler is a total function, so the
error is never fatal to the process. -/
theorem c7_read_error (s : Server) (net : Net) (mint : Nat → String)
    (bind : Int → Option Nat) (conn : Nat) (remoteAddr : String)
    (userConns : List Nat) :
    s.handle net mint bind conn remoteAddr userConns none = (s, net) := rfl

/-- C8: the claim fails against the code, which contradicts the source's own
comment on `Config.AdminPort` ("zero means disable admin server"): with
`AdminPort = 0` the server still starts the admin HTTP surface —
`startAdmin` unconditionally calls `http.ListenAndServe` on the address
":0", which binds an OS-assigned ephemeral port and serves the status page;
no disable branch exists. -/
theorem c8_admin_not_disabled :
    startAdmin ⟨8910, 0⟩ = .listenAndServe ":0" := by decide

/-- C9, counterexample to the claim as stated: a config file that is read
successfully but fails to parse does not abort the process — the
`toml.Unmarshal` error is discarded (handle.go:89) and `parseConfig` returns
the (zero-valued) config the unmarshaller produced. -/
theorem c9_counterexample :
    parseConfig (.ok "not valid toml")
        (fun _ => ⟨⟨0, 0⟩, some "toml: parse error"⟩)
      ≠ .fatal := by decide

/-- C9, amended: if the config file cannot be read at startup, or the main
listening socket cannot be bound, the process aborts immediately; but a
config file that is read and fails to parse does not abort — the parse error
is ignored and whatever config the unmarshaller produced is returned. -/
theorem c9_fatal_paths (unmarshal : String → UnmarshalResult) (data : String)
    (s : Server) (bindMain : Int → Option Nat)
    (hb : bindMain s.cfg.Port = none) :
    parseConfig .fileError unmarshal = .fatal
    ∧ parseConfig (.ok data) unmarshal = .ret (unmarshal data).cfg
    ∧ Run s bindMain = .fatal := by
  refine ⟨rfl, rfl, ?_⟩
  simp [Run, hb]

/-- C9, witness for `c9_fatal_paths` at a concrete input. -/
theorem c9_fatal_paths_witness :
    ((fun _ : Int => (none : Option Nat))
        (⟨⟨8910, 0⟩, ⟨[]⟩, [], []⟩ : Server).cfg.Port = none)
    ∧ (parseConfig .fileError (fun _ => ⟨⟨1, 2⟩, none⟩) = .fatal
      ∧ parseConfig (.ok "port = 8910") (fun _ => ⟨⟨1, 2⟩, none⟩)
          = .ret ((fun _ : String => (⟨⟨1, 2⟩, none⟩ : UnmarshalResult))
              "port = 8910").cfg
      ∧ Run ⟨⟨8910, 0⟩, ⟨[]⟩, [], []⟩ (fun _ : Int => (none : Option Nat))
          = .fatal) :=
  ⟨rfl,
   c9_fatal_paths (fun _ => ⟨⟨1, 2⟩, none⟩) "port = 8910"
     ⟨⟨8910, 0⟩, ⟨[]⟩, [], []⟩ (fun _ : Int => (none : Option Nat)) rfl⟩

/-- C10: for every accepted connection whose first frame decodes to a message
type that is none of Register, Exchange, or Cancel, the `switch` falls
through and the handler does nothing: the Forward Registry, the Correlation
Store and the whole socket environment are unchanged, no frame is sent, and
the connection is not closed by the handler. -/
theorem c10_unknown_type (s : Server) (net : Net) (mint : Nat → String)
    (bind : Int → Option Nat) (conn : Nat) (remoteAddr : String)
    (userConns : List Nat) (tag : Nat) :
    s.handle net mint bind conn remoteAddr userConns
      (some (.Unknown tag)) = (s, net) := rfl

end Pipe
